import Mathlib

/-!
Shallow embedding of the client-side authentication core of `tool-client`:
the auth state container (`src/src/hooks/useAuth.ts`), the HTTP boundary's
response interceptor (`src/src/services/api/client.ts`), the auth API
operations (`src/src/services/api/auth.ts`), and the countdown timer
(`useCountdown`).  Remote calls are modelled by oracle parameters giving the
outcome of each call (a structured response, or a thrown error message).
JavaScript truthiness of strings (the empty string is falsy) is modelled
explicitly by `truthyStr`, since the source tests values such as
`response.data?.token` and `localStorage.getItem("authToken")` with `if`.
-/

/-- JS truthiness of an optional string: `undefined`/`null` and `""` are falsy. -/
def truthyStr : Option String → Bool
  | none => false
  | some s => !(s == "")

/-- JS `a || b` on strings: `b` when `a` is falsy (empty), else `a`. -/
def jsOr (a b : String) : String :=
  if a == "" then b else a

/-- User record, from `src/src/types/auth.ts`. -/
structure User where
  id : String
  email : String
  firstName : Option String
  lastName : Option String
  avatar : Option String
  createdAt : String
  updatedAt : String
deriving DecidableEq

/-- The optional `data` payload of an `AuthResponse` (`src/src/types/auth.ts`). -/
structure AuthData where
  user : Option User
  token : Option String
  refreshToken : Option String
deriving DecidableEq

/-- Response shape of the auth endpoints, from `src/src/types/auth.ts`. -/
structure AuthResponse where
  success : Bool
  message : String
  data : Option AuthData
deriving DecidableEq

/-- In-memory auth state, from `src/src/types/auth.ts` (`AuthState`). -/
structure AuthState where
  user : Option User
  token : Option String
  isAuthenticated : Bool
  isLoading : Bool
  error : Option String
deriving DecidableEq

/-- The persisted key-value store: the two fixed keys `authToken` and
`refreshToken` of `localStorage`. -/
structure Storage where
  authToken : Option String
  refreshToken : Option String
deriving DecidableEq

/-- Normalized error shape produced by the response interceptor
(`ApiError` in `src/src/types/auth.ts`). -/
structure ApiError where
  message : String
  code : Option String
  statusCode : Option Nat
deriving DecidableEq

/-- The parts of an axios error the interceptor reads: `error.response?.status`,
`error.response?.data?.message`, `error.response?.data?.code`, `error.message`.
Absent `response` or `data` is modelled by `none` fields. -/
structure ErrorResponse where
  status : Option Nat
  dataMessage : Option String
  dataCode : Option String
  message : String
deriving DecidableEq

/-- Result of running the response interceptor on a failed response:
the normalized error, the storage afterwards, and whether it forced
navigation to `/auth/login`. -/
structure InterceptResult where
  apiError : ApiError
  storage : Storage
  navigatedToLogin : Bool
deriving DecidableEq

/-- The response interceptor of `ApiClient.setupInterceptors`
(`src/src/services/api/client.ts`, lines 33-54): builds the normalized
`ApiError` via the `||` chain, and when `error.response?.status === 40`
removes both storage keys and sets `window.location.href = "/auth/login"`. -/
def responseInterceptor (e : ErrorResponse) (st : Storage) : InterceptResult :=
  let apiError : ApiError :=
    { message := jsOr (e.dataMessage.getD "") (jsOr e.message "An error occurred")
      code := e.dataCode
      statusCode := e.status }
  if e.status == some 40 then
    { apiError := apiError
      storage := { authToken := none, refreshToken := none }
      navigatedToLogin := true }
  else
    { apiError := apiError, storage := st, navigatedToLogin := false }

/-- The initial state of `useAuthProvider` (`src/src/hooks/useAuth.ts`,
lines 35-41): anonymous, `isLoading = true`. -/
def initialAuthState : AuthState :=
  { user := none, token := none, isAuthenticated := false
    isLoading := true, error := none }

/-- Storage with neither key present. -/
def emptyStorage : Storage :=
  { authToken := none, refreshToken := none }

/-- `setAuth` from `useAuthProvider` (`src/src/hooks/useAuth.ts`, lines 56-72):
replaces `user`/`token`, computes `isAuthenticated` as `!!user && !!token`,
clears loading and error; persists `authToken` when the token is truthy,
otherwise removes both storage keys. -/
def setAuth (user : Option User) (token : Option String)
    (s : AuthState) (st : Storage) : AuthState × Storage :=
  ({ s with
      user := user
      token := token
      isAuthenticated := user.isSome && truthyStr token
      isLoading := false
      error := none },
   if truthyStr token then { st with authToken := token }
   else { authToken := none, refreshToken := none })

/-- Outcome of a remote call returning an `AuthResponse`: either the parsed
response, or a thrown error carrying a message. -/
inductive AuthOutcome where
  | ok (resp : AuthResponse)
  | err (message : String)
deriving DecidableEq

/-- Outcome of `authApi.getCurrentUser`: a bare user record, or a thrown error. -/
inductive UserOutcome where
  | ok (u : User)
  | err (message : String)
deriving DecidableEq

/-- Outcome of the remote call inside `authApi.logout`. -/
inductive LogoutOutcome where
  | ok
  | err
deriving DecidableEq

/-- Result of one `login`/`signup` invocation: the returned boolean, the state
and storage afterwards, and the value of `isLoading` in effect at the moment
the remote call was issued. -/
structure LoginTrace where
  result : Bool
  state : AuthState
  storage : Storage
  loadingAtCall : Bool
deriving DecidableEq

/-- `login` from `useAuthProvider` (`src/src/hooks/useAuth.ts`, lines 74-117):
sets loading, clears the error, awaits the login call; on
`response.success && response.data?.user && response.data?.token` calls
`setAuth` and stores `refreshToken` when present; otherwise records
`response.message || "Login failed"`; on a thrown error records
`error.message || "Login failed"`; always ends with `setLoading(false)`. -/
def login (o : AuthOutcome) (s0 : AuthState) (st0 : Storage) : LoginTrace :=
  let s1 : AuthState := { s0 with isLoading := true }
  let s2 : AuthState := { s1 with error := none }
  match o with
  | AuthOutcome.ok resp =>
    match resp.data with
    | some d =>
      if resp.success && d.user.isSome && truthyStr d.token then
        let pair := setAuth d.user d.token s2 st0
        let st2 :=
          if truthyStr d.refreshToken then
            { pair.2 with refreshToken := d.refreshToken }
          else pair.2
        { result := true
          state := { pair.1 with isLoading := false }
          storage := st2
          loadingAtCall := s2.isLoading }
      else
        { result := false
          state := { s2 with
            error := some (jsOr resp.message "Login failed"), isLoading := false }
          storage := st0
          loadingAtCall := s2.isLoading }
    | none =>
      { result := false
        state := { s2 with
          error := some (jsOr resp.message "Login failed"), isLoading := false }
        storage := st0
        loadingAtCall := s2.isLoading }
  | AuthOutcome.err m =>
      { result := false
        state := { s2 with
          error := some (jsOr m "Login failed"), isLoading := false }
        storage := st0
        loadingAtCall := s2.isLoading }

/-- `signup` from `useAuthProvider` (`src/src/hooks/useAuth.ts`, lines 119-156):
same loading/error discipline as `login`, but on success only reports true,
never touching `user`, `token`, `isAuthenticated` or storage. -/
def signup (o : AuthOutcome) (s0 : AuthState) (st0 : Storage) : LoginTrace :=
  let s1 : AuthState := { s0 with isLoading := true }
  let s2 : AuthState := { s1 with error := none }
  match o with
  | AuthOutcome.ok resp =>
    if resp.success then
      { result := true
        state := { s2 with isLoading := false }
        storage := st0
        loadingAtCall := s2.isLoading }
    else
      { result := false
        state := { s2 with
          error := some (jsOr resp.message "Signup failed"), isLoading := false }
        storage := st0
        loadingAtCall := s2.isLoading }
  | AuthOutcome.err m =>
      { result := false
        state := { s2 with
          error := some (jsOr m "Signup failed"), isLoading := false }
        storage := st0
        loadingAtCall := s2.isLoading }

/-- `logout` from `useAuthProvider` (`src/src/hooks/useAuth.ts`, lines 158-170)
combined with `authApi.logout` (`src/src/services/api/auth.ts`, lines 41-45):
when the remote call succeeds, `authApi.logout` removes both storage keys;
when it throws, the provider catches and logs; in both cases the `finally`
block runs `setAuth(null, null)`. -/
def logoutOp (o : LogoutOutcome) (s0 : AuthState) (st0 : Storage) :
    AuthState × Storage :=
  let st1 : Storage :=
    match o with
    | LogoutOutcome.ok => { authToken := none, refreshToken := none }
    | LogoutOutcome.err => st0
  setAuth none none s0 st1

/-- Result of startup rehydration: the state and storage afterwards, and
whether a network call (`authApi.getCurrentUser`) was issued. -/
structure RehydrateTrace where
  state : AuthState
  storage : Storage
  networkCalled : Bool
deriving DecidableEq

/-- The `initAuth` effect of `useAuthProvider` (`src/src/hooks/useAuth.ts`,
lines 173-194): reads `authToken`; if falsy, clears loading and returns with no
network call; otherwise fetches the current user, calling `setAuth(user, token)`
on success and `setAuth(null, null)` on failure, then clears loading. -/
def initAuth (o : UserOutcome) (s0 : AuthState) (st0 : Storage) :
    RehydrateTrace :=
  let tok := st0.authToken
  if truthyStr tok then
    match o with
    | UserOutcome.ok u =>
      let pair := setAuth (some u) tok s0 st0
      { state := { pair.1 with isLoading := false }
        storage := pair.2
        networkCalled := true }
    | UserOutcome.err _ =>
      let pair := setAuth none none s0 st0
      { state := { pair.1 with isLoading := false }
        storage := pair.2
        networkCalled := true }
  else
    { state := { s0 with isLoading := false }, storage := st0
      networkCalled := false }

/-- `authApi.refreshToken` (`src/src/services/api/auth.ts`, lines 47-51):
reads the stored refresh token and posts it to `/auth/refresh`; it performs no
storage write itself.  Returns the (unchanged) storage and the payload sent. -/
def refreshTokenOp (st : Storage) : Storage × Option String :=
  (st, st.refreshToken)

/-- One Auth Controller operation, with the outcome of any remote call it
makes supplied as an oracle. -/
inductive AuthEvent where
  | loginEv (o : AuthOutcome)
  | signupEv (o : AuthOutcome)
  | logoutEv (o : LogoutOutcome)
  | clearErrorEv
  | rehydrateEv (o : UserOutcome)

/-- State transition of the Auth Controller for one operation. -/
def authStep (e : AuthEvent) (sys : AuthState × Storage) : AuthState × Storage :=
  match e with
  | AuthEvent.loginEv o =>
    let t := login o sys.1 sys.2
    (t.state, t.storage)
  | AuthEvent.signupEv o =>
    let t := signup o sys.1 sys.2
    (t.state, t.storage)
  | AuthEvent.logoutEv o => logoutOp o sys.1 sys.2
  | AuthEvent.clearErrorEv => ({ sys.1 with error := none }, sys.2)
  | AuthEvent.rehydrateEv o =>
    let t := initAuth o sys.1 sys.2
    (t.state, t.storage)

/-- Run a sequence of Auth Controller operations from the initial state. -/
def runAuth (evs : List AuthEvent) (st0 : Storage) : AuthState × Storage :=
  evs.foldl (fun sys e => authStep e sys) (initialAuthState, st0)

/-- Countdown state of `useCountdown` (`src/src/App.tsx`, lines 79-141):
remaining seconds, the running flag, and how many times the completion
callback has fired. -/
structure CountdownState where
  timeLeft : Int
  isRunning : Bool
  completions : Nat
deriving DecidableEq

namespace Countdown

/-- `start` (`src/src/App.tsx`, lines 94-96): sets `isRunning` only. -/
def start (s : CountdownState) : CountdownState :=
  { s with isRunning := true }

/-- `stop` (`src/src/App.tsx`, lines 98-100): clears `isRunning` only. -/
def stop (s : CountdownState) : CountdownState :=
  { s with isRunning := false }

/-- `reset` (`src/src/App.tsx`, lines 102-108): stops and sets `timeLeft` to
`newTime ?? initialTime`. -/
def reset (initialTime : Int) (newTime : Option Int) (s : CountdownState) :
    CountdownState :=
  { s with isRunning := false, timeLeft := newTime.getD initialTime }

/-- One interval tick (`src/src/App.tsx`, lines 110-131): an interval exists
only while `isRunning && timeLeft > 0`; the callback clamps to 0, stops, and
fires `onComplete` when the previous value is `<= 1`, else decrements. -/
def tick (s : CountdownState) : CountdownState :=
  if s.isRunning ∧ 0 < s.timeLeft then
    if s.timeLeft ≤ 1 then
      { timeLeft := 0, isRunning := false, completions := s.completions + 1 }
    else
      { s with timeLeft := s.timeLeft - 1 }
  else s

end Countdown

/-- A sample user record. -/
def sampleUser : User :=
  { id := "u1", email := "alice@example.com", firstName := some "Alice"
    lastName := none, avatar := none
    createdAt := "2024-01-01", updatedAt := "2024-01-02" }

/-- A successful login response carrying user, token and refresh token. -/
def goodLoginData : AuthData :=
  { user := some sampleUser, token := some "tok1", refreshToken := some "ref1" }

/-- A successful login response wrapping `goodLoginData`. -/
def goodLoginResp : AuthResponse :=
  { success := true, message := "ok", data := some goodLoginData }

/-- A declared-failure login response, as in the spec scenario. -/
def invalidCredsResp : AuthResponse :=
  { success := false, message := "Invalid credentials", data := none }

/-- A success response whose token is the empty string. -/
def emptyTokenResp : AuthResponse :=
  { success := true, message := "ok"
    data := some { user := some sampleUser, token := some "", refreshToken := none } }

/-- A successful login response that carries no refresh token. -/
def noRefreshLoginResp : AuthResponse :=
  { success := true, message := "ok"
    data := some { user := some sampleUser, token := some "tok9", refreshToken := none } }

/-- Storage holding both tokens. -/
def fullStorage : Storage :=
  { authToken := some "tok", refreshToken := some "ref" }

/-- A 401 response as axios presents it to the interceptor. -/
def unauthorizedError : ErrorResponse :=
  { status := some 401, dataMessage := none, dataCode := none
    message := "Request failed with status code 401" }

/-- A response with status 40, the value the interceptor actually matches. -/
def status40Error : ErrorResponse :=
  { status := some 40, dataMessage := none, dataCode := none
    message := "Request failed with status code 40" }

/-- C1: the interceptor condition is `status === 40`, not 401: a genuine 401
response leaves both storage keys in place and forces no navigation, while a
(non-standard) status-40 response does clear both keys and navigate.  This
contradicts the code's own comment "Handle 401 - Unauthorized" and the spec. -/
theorem interceptor_401_no_clear :
    (responseInterceptor unauthorizedError fullStorage).storage = fullStorage ∧
    (responseInterceptor unauthorizedError fullStorage).navigatedToLogin = false ∧
    (responseInterceptor status40Error fullStorage).storage =
      { authToken := none, refreshToken := none } ∧
    (responseInterceptor status40Error fullStorage).navigatedToLogin = true := by
  decide

/-- C3: whatever the prior state, the prior storage, and the outcome of the
remote logout call, after `logout()` both persisted tokens are gone and the
session equals the anonymous resolved shape. -/
theorem logout_clears_session_and_storage
    (o : LogoutOutcome) (s0 : AuthState) (st0 : Storage) :
    logoutOp o s0 st0 =
      ({ user := none, token := none, isAuthenticated := false
         isLoading := false, error := none },
       { authToken := none, refreshToken := none }) := by
  cases o <;> rfl

/-- C5: for every outcome of the remote call, `isLoading` is true at the
moment `login`/`signup` issue the call, and false once the call has settled. -/
theorem loading_discipline (o : AuthOutcome) (s0 : AuthState) (st0 : Storage) :
    (login o s0 st0).loadingAtCall = true ∧
    (login o s0 st0).state.isLoading = false ∧
    (signup o s0 st0).loadingAtCall = true ∧
    (signup o s0 st0).state.isLoading = false := by
  refine ⟨?_, ?_, ?_, ?_⟩ <;> cases o with
  | ok resp =>
    cases hd : resp.data <;> simp [login, signup, hd] <;> (try split) <;> rfl
  | err m => rfl

/-- The empty option is falsy. -/
theorem truthyStr_none : truthyStr none = false := rfl

/-- C6: with no stored access token, startup rehydration makes no network
call and leaves the session anonymous with `isLoading` false, whatever the
would-be outcome of a user fetch. -/
theorem rehydrate_no_token (o : UserOutcome) (st0 : Storage)
    (h : st0.authToken = none) :
    (initAuth o initialAuthState st0).networkCalled = false ∧
    (initAuth o initialAuthState st0).state =
      { user := none, token := none, isAuthenticated := false
        isLoading := false, error := none } ∧
    (initAuth o initialAuthState st0).storage = st0 := by
  refine ⟨?_, ?_, ?_⟩ <;> simp [initAuth, h, truthyStr, initialAuthState]

/-- Witness for `rehydrate_no_token` at a concrete storage and outcome. -/
theorem rehydrate_no_token_witness :
    (initAuth (UserOutcome.err "boom") initialAuthState
        { authToken := none, refreshToken := some "stale" }).networkCalled = false ∧
    (initAuth (UserOutcome.err "boom") initialAuthState
        { authToken := none, refreshToken := some "stale" }).state =
      { user := none, token := none, isAuthenticated := false
        isLoading := false, error := none } := by
  have h := rehydrate_no_token (UserOutcome.err "boom")
    { authToken := none, refreshToken := some "stale" } rfl
  exact ⟨h.1, h.2.1⟩

/-- C7: with a stored (truthy) access token, rehydration whose user fetch
fails clears the session to anonymous and removes both stored tokens, while
a successful fetch populates the session as authenticated with that user and
the stored token (re-persisting it). -/
theorem rehydrate_with_token (st0 : Storage) (u : User) (m : String)
    (h : truthyStr st0.authToken = true) :
    ((initAuth (UserOutcome.err m) initialAuthState st0).state =
        { user := none, token := none, isAuthenticated := false
          isLoading := false, error := none } ∧
      (initAuth (UserOutcome.err m) initialAuthState st0).storage =
        { authToken := none, refreshToken := none }) ∧
    ((initAuth (UserOutcome.ok u) initialAuthState st0).state =
        { user := some u, token := st0.authToken, isAuthenticated := true
          isLoading := false, error := none } ∧
      (initAuth (UserOutcome.ok u) initialAuthState st0).storage.authToken =
        st0.authToken ∧
      (initAuth (UserOutcome.ok u) initialAuthState st0).networkCalled = true) := by
  refine ⟨⟨?_, ?_⟩, ?_, ?_, ?_⟩ <;>
    simp [initAuth, setAuth, h, initialAuthState, truthyStr_none]

/-- Witness for `rehydrate_with_token` at a concrete storage, user and message. -/
theorem rehydrate_with_token_witness :
    (initAuth (UserOutcome.err "rejected") initialAuthState fullStorage).storage =
      { authToken := none, refreshToken := none } ∧
    (initAuth (UserOutcome.ok sampleUser) initialAuthState fullStorage).state =
      { user := some sampleUser, token := some "tok", isAuthenticated := true
        isLoading := false, error := none } := by
  have h := rehydrate_with_token fullStorage sampleUser "rejected" (by decide)
  exact ⟨h.1.2, h.2.1⟩

/-- Claim-side acceptance condition of `login`, written from the amended
claim: the call returned a response (did not throw) with `success` true, a
non-null user, and a non-empty token.  This mirrors the guard
`response.success && response.data?.user && response.data?.token`. -/
def loginAccepted (o : AuthOutcome) : Bool :=
  match o with
  | AuthOutcome.ok resp =>
    match resp.data with
    | some d => resp.success && d.user.isSome && truthyStr d.token
    | none => false
  | AuthOutcome.err _ => false

/-- Claim-side failure message of `login`: the response or error message,
with the generic fallback `"Login failed"`. -/
def loginFailMessage (o : AuthOutcome) : String :=
  match o with
  | AuthOutcome.ok resp => jsOr resp.message "Login failed"
  | AuthOutcome.err m => jsOr m "Login failed"

/-- C4 counterexample: a response with `success` true, a non-null user, and a
non-null (but empty-string) token makes `login` return false, because the
guard tests the token with JS truthiness, under which `""` is falsy.  The
claim as stated says such a response must return true. -/
theorem login_nonnull_token_counterexample :
    emptyTokenResp.success = true ∧
    (emptyTokenResp.data.bind AuthData.user) ≠ none ∧
    (emptyTokenResp.data.bind AuthData.token) ≠ none ∧
    (login (AuthOutcome.ok emptyTokenResp) initialAuthState emptyStorage).result
      = false := by
  decide

/-- C4 amended: `login` returns true exactly when the response has `success`
true together with a non-null user and a non-empty token; then the session is
replaced wholesale (authenticated, `authToken` persisted).  On any other
outcome it returns false, sets `error` to the response/error message with the
generic fallback, and leaves `user` and `token` unchanged (hence absent when
the session was anonymous). -/
theorem login_amended (o : AuthOutcome) (s0 : AuthState) (st0 : Storage) :
    ((login o s0 st0).result = loginAccepted o) ∧
    (∀ resp d, o = AuthOutcome.ok resp → resp.data = some d →
      loginAccepted o = true →
      (login o s0 st0).state =
        { user := d.user, token := d.token, isAuthenticated := true
          isLoading := false, error := none } ∧
      (login o s0 st0).storage.authToken = d.token) ∧
    (loginAccepted o = false →
      (login o s0 st0).result = false ∧
      (login o s0 st0).state.error = some (loginFailMessage o) ∧
      (login o s0 st0).state.user = s0.user ∧
      (login o s0 st0).state.token = s0.token) := by
  refine ⟨?_, ?_, ?_⟩
  · cases o with
    | ok resp =>
      cases hd : resp.data with
      | none => simp [login, loginAccepted, hd]
      | some d =>
        simp only [login, loginAccepted, hd]
        split <;> simp_all
    | err m => rfl
  · rintro resp d rfl hd hacc
    simp only [loginAccepted, hd] at hacc
    have huser : d.user.isSome = true := by
      cases h1 : resp.success <;> cases h2 : d.user.isSome <;> simp_all
    have htok : truthyStr d.token = true := by
      cases h1 : resp.success <;> cases h2 : truthyStr d.token <;> simp_all
    have hsucc : resp.success = true := by
      cases h1 : resp.success <;> simp_all
    constructor
    · simp [login, hd, hsucc, huser, htok, setAuth]
    · simp [login, hd, hsucc, huser, htok, setAuth]
      split <;> rfl
  · intro hacc
    cases o with
    | ok resp =>
      cases hd : resp.data with
      | none => simp [login, loginFailMessage, hd]
      | some d =>
        simp only [loginAccepted, hd] at hacc
        simp [login, loginFailMessage, hd, hacc]
    | err m => simp [login, loginFailMessage]

/-- Witness for `login_amended`: a successful login makes the session
authenticated with the token persisted, and the spec scenario response
`{success: false, message: "Invalid credentials"}` yields a false result with
that error recorded. -/
theorem login_amended_witness :
    (login (AuthOutcome.ok goodLoginResp) initialAuthState emptyStorage).state.isAuthenticated
      = true ∧
    (login (AuthOutcome.ok goodLoginResp) initialAuthState emptyStorage).storage.authToken
      = some "tok1" ∧
    (login (AuthOutcome.ok invalidCredsResp) initialAuthState emptyStorage).result
      = false ∧
    (login (AuthOutcome.ok invalidCredsResp) initialAuthState emptyStorage).state.error
      = some "Invalid credentials" := by
  have hs := (login_amended (AuthOutcome.ok goodLoginResp) initialAuthState
      emptyStorage).2.1 goodLoginResp goodLoginData rfl rfl (by decide)
  have hf := (login_amended (AuthOutcome.ok invalidCredsResp) initialAuthState
      emptyStorage).2.2 (by decide)
  refine ⟨by rw [hs.1], hs.2.trans (by decide), hf.1, hf.2.1.trans (by decide)⟩

/-- C9 counterexample: a successful login whose response carries no refresh
token persists `authToken` alone — the two keys are not written together.
(The storage starts empty, so the missing write is observable.) -/
theorem tokens_written_together_counterexample :
    (login (AuthOutcome.ok noRefreshLoginResp) initialAuthState emptyStorage).result
      = true ∧
    (login (AuthOutcome.ok noRefreshLoginResp) initialAuthState emptyStorage).storage.authToken
      = some "tok9" ∧
    (login (AuthOutcome.ok noRefreshLoginResp) initialAuthState emptyStorage).storage.refreshToken
      = none := by
  decide

/-- C9 amended: on a successful login the access token is always persisted
while the refresh token is persisted only when the response carries a truthy
one (otherwise the stored value is left as it was); the refresh operation
itself writes nothing to storage; both keys are removed together on logout
(whatever the remote outcome); and the interceptor removes both keys together
and navigates when its unauthorized check — keyed to status 40, not 401 —
matches. -/
theorem token_lifecycle_amended :
    (∀ (resp : AuthResponse) (d : AuthData) (s0 : AuthState) (st0 : Storage),
      resp.data = some d → resp.success = true → d.user.isSome = true →
      truthyStr d.token = true →
      (login (AuthOutcome.ok resp) s0 st0).storage.authToken = d.token ∧
      (login (AuthOutcome.ok resp) s0 st0).storage.refreshToken =
        (if truthyStr d.refreshToken then d.refreshToken else st0.refreshToken)) ∧
    (∀ (o : LogoutOutcome) (s0 : AuthState) (st0 : Storage),
      (logoutOp o s0 st0).2 = { authToken := none, refreshToken := none }) ∧
    (∀ (e : ErrorResponse) (st : Storage), e.status = some 40 →
      (responseInterceptor e st).storage =
        { authToken := none, refreshToken := none } ∧
      (responseInterceptor e st).navigatedToLogin = true) ∧
    (∀ st : Storage, (refreshTokenOp st).1 = st) := by
  refine ⟨?_, ?_, ?_, fun st => rfl⟩
  · intro resp d s0 st0 hd hs hu ht
    constructor
    · simp [login, hd, hs, hu, ht, setAuth]
      split <;> rfl
    · simp [login, hd, hs, hu, ht, setAuth]
      split <;> simp
  · intro o s0 st0
    cases o <;> rfl
  · intro e st he
    simp [responseInterceptor, he]

/-- Witness for `token_lifecycle_amended` at concrete inputs: a successful
login with a refresh token persists both, logout with a failed remote call
still clears both, and a status-40 response clears both. -/
theorem token_lifecycle_witness :
    (login (AuthOutcome.ok goodLoginResp) initialAuthState emptyStorage).storage.authToken
      = some "tok1" ∧
    (login (AuthOutcome.ok goodLoginResp) initialAuthState emptyStorage).storage.refreshToken
      = some "ref1" ∧
    (logoutOp LogoutOutcome.err initialAuthState fullStorage).2 =
      { authToken := none, refreshToken := none } ∧
    (responseInterceptor status40Error fullStorage).storage =
      { authToken := none, refreshToken := none } := by
  have h1 := token_lifecycle_amended.1 goodLoginResp goodLoginData
    initialAuthState emptyStorage rfl rfl (by decide) (by decide)
  have h2 := token_lifecycle_amended.2.1 LogoutOutcome.err initialAuthState fullStorage
  have h3 := (token_lifecycle_amended.2.2.1 status40Error fullStorage rfl).1
  exact ⟨h1.1.trans (by decide), h1.2.trans (by decide), h2, h3⟩

/-- A truthy optional string is present. -/
theorem truthyStr_isSome {o : Option String} (h : truthyStr o = true) :
    o.isSome = true := by
  cases o <;> simp_all [truthyStr]

/-- Strengthened auth invariant: the stored token is never the empty string
(so JS truthiness agrees with presence), and `isAuthenticated` equals the
conjunction of user and token presence. -/
def authInv (s : AuthState) : Bool :=
  (truthyStr s.token == s.token.isSome) &&
  (s.isAuthenticated == (s.user.isSome && s.token.isSome))

/-- Every Auth Controller operation preserves `authInv`. -/
theorem authInv_authStep (e : AuthEvent) (sys : AuthState × Storage)
    (h : authInv sys.1 = true) : authInv (authStep e sys).1 = true := by
  obtain ⟨s, st⟩ := sys
  cases e with
  | loginEv o =>
    cases o with
    | ok resp =>
      cases hd : resp.data with
      | none => simpa [authStep, login, authInv, hd] using h
      | some d =>
        simp only [authStep, login, hd]
        split
        · rename_i hg
          simp only [Bool.and_eq_true] at hg
          obtain ⟨⟨hs1, hu⟩, ht⟩ := hg
          simp [authInv, setAuth, hu, ht, truthyStr_isSome ht]
        · simpa [authInv] using h
    | err m => simpa [authStep, login, authInv] using h
  | signupEv o =>
    cases o with
    | ok resp =>
      simp only [authStep, signup]
      split <;> simpa [authInv] using h
    | err m => simpa [authStep, signup, authInv] using h
  | logoutEv o =>
    cases o <;> simp [authStep, logoutOp, setAuth, authInv, truthyStr]
  | clearErrorEv => simpa [authStep, authInv] using h
  | rehydrateEv o =>
    cases o with
    | ok u =>
      simp only [authStep, initAuth]
      split
      · rename_i ht
        simp [authInv, setAuth, ht, truthyStr_isSome ht]
      · simpa [authInv] using h
    | err m =>
      simp only [authStep, initAuth]
      split
      · simp [authInv, setAuth, truthyStr]
      · simpa [authInv] using h

/-- The auth invariant holds after any sequence of operations from startup. -/
theorem authInv_runAuth (evs : List AuthEvent) (st0 : Storage) :
    authInv (runAuth evs st0).1 = true := by
  suffices h : ∀ (sys : AuthState × Storage), authInv sys.1 = true →
      authInv (List.foldl (fun sys e => authStep e sys) sys evs).1 = true by
    exact h (initialAuthState, st0) rfl
  induction evs with
  | nil => intro sys h0; simpa using h0
  | cons e tl ih =>
    intro sys h0
    simpa [List.foldl] using ih (authStep e sys) (authInv_authStep e sys h0)

/-- C2: after every sequence of Auth Controller operations (starting from the
initial state, with any storage contents and any remote-call outcomes),
`isAuthenticated` is true if and only if both `user` and `token` are
non-null. -/
theorem session_iff_user_and_token (evs : List AuthEvent) (st0 : Storage) :
    (runAuth evs st0).1.isAuthenticated = true ↔
      ((runAuth evs st0).1.user ≠ none ∧ (runAuth evs st0).1.token ≠ none) := by
  have h := authInv_runAuth evs st0
  simp only [authInv, Bool.and_eq_true, beq_iff_eq] at h
  rw [h.2]
  simp [Bool.and_eq_true, Option.isSome_iff_ne_none]

set_option maxRecDepth 4000 in
/-- C8: a countdown built with `initialTime = 300` and started reaches, after
300 ticks, `timeLeft = 0` with `isRunning` false and the completion callback
fired exactly once; starting again at zero never decrements below zero (no
interval runs at zero, and every tick clamps a non-negative time at zero). -/
theorem countdown_300_run :
    (Countdown.tick^[300] (Countdown.start
        { timeLeft := 300, isRunning := false, completions := 0 })).timeLeft = 0 ∧
    (Countdown.tick^[300] (Countdown.start
        { timeLeft := 300, isRunning := false, completions := 0 })).isRunning = false ∧
    (Countdown.tick^[300] (Countdown.start
        { timeLeft := 300, isRunning := false, completions := 0 })).completions = 1 ∧
    (∀ n : Nat,
      (Countdown.tick^[n] (Countdown.start (Countdown.tick^[300] (Countdown.start
        { timeLeft := 300, isRunning := false, completions := 0 })))).timeLeft = 0) ∧
    (∀ s : CountdownState, 0 ≤ s.timeLeft → 0 ≤ (Countdown.tick s).timeLeft) := by
  have h300 : Countdown.tick^[300] (Countdown.start
      { timeLeft := 300, isRunning := false, completions := 0 }) =
      { timeLeft := 0, isRunning := false, completions := 1 } := by decide
  have hfix : Countdown.tick (Countdown.start
      { timeLeft := 0, isRunning := false, completions := 1 }) =
      Countdown.start { timeLeft := 0, isRunning := false, completions := 1 } := by
    decide
  refine ⟨by rw [h300], by rw [h300], by rw [h300], ?_, ?_⟩
  · intro n
    rw [h300, Function.iterate_fixed hfix]
    rfl
  · intro s hs
    unfold Countdown.tick
    split
    · rename_i h1
      split
      · exact le_refl 0
      · rename_i h2
        show (0 : Int) ≤ s.timeLeft - 1
        omega
    · exact hs

/-- Witness for `countdown_300_run` at a concrete ticking state. -/
theorem countdown_300_run_witness :
    (0 : Int) ≤ (Countdown.tick
      { timeLeft := 5, isRunning := true, completions := 0 }).timeLeft :=
  countdown_300_run.2.2.2.2
    { timeLeft := 5, isRunning := true, completions := 0 } (by decide)

/-- C10: from a completed countdown (`timeLeft = 0`), `start()` sets
`isRunning` to true, yet no tick ever changes the state again — `timeLeft`
stays 0 and `isRunning` stays true — until `stop()` (or `reset`) clears the
flag: `isRunning` true does not imply the timer is ticking. -/
theorem restart_at_zero_idle (s : CountdownState) (h : s.timeLeft = 0) :
    (Countdown.start s).isRunning = true ∧
    (∀ n : Nat, Countdown.tick^[n] (Countdown.start s) = Countdown.start s) ∧
    (Countdown.stop (Countdown.start s)).isRunning = false := by
  have hfix : Countdown.tick (Countdown.start s) = Countdown.start s := by
    simp [Countdown.tick, Countdown.start, h]
  exact ⟨rfl, fun n => Function.iterate_fixed hfix n, rfl⟩

/-- Witness for `restart_at_zero_idle` at the state a completed 300-second
run leaves behind. -/
theorem restart_at_zero_idle_witness :
    (Countdown.start { timeLeft := 0, isRunning := false, completions := 1 }).isRunning
      = true ∧
    Countdown.tick^[7] (Countdown.start
        { timeLeft := 0, isRunning := false, completions := 1 }) =
      Countdown.start { timeLeft := 0, isRunning := false, completions := 1 } := by
  have h := restart_at_zero_idle
    { timeLeft := 0, isRunning := false, completions := 1 } rfl
  exact ⟨h.1, h.2.1 7⟩
